import Mathlib

/-
Verification of the wifi provisioning lifecycle of src/main/wifi_setup.c.

The module state of wifi_setup.c (the static variables `provisioning_timer`
and `startup_wifi_config`, together with the external resources the code
manipulates: the persisted STA credential record in flash, the provisioning
manager, and the reconnect collaborator) is embedded as `ModuleState`.
Handlers are embedded as state transformers that additionally emit the
ordered list of externally observable actions (`Action`) they perform, so
ordering and frame properties can be stated about the traces.
-/

namespace WifiSetup

/- A STA credential record: `ssid` empty (first byte NUL in C) means unset. -/
structure WifiStaConfig where
  ssid : List Char
  password : List Char
deriving DecidableEq

/- Externally observable calls the code makes, in program order. -/
inductive Action where
  | logInfo (msg : String)
  | logError (msg : String)
  | timerStop
  | timerDelete
  | timerCreate
  | timerStartOnce (us : Nat)
  | provStopRequest
  | provDeinit
  | provInit
  | provStart (serviceName : List Char)
  | setStorage
  | getConfig
  | setConfig (c : WifiStaConfig)
  | reconnectStart
  | reconnectResume
  | wifiStart
deriving DecidableEq

def Action.isLog : Action → Bool
  | Action.logInfo _ => true
  | Action.logError _ => true
  | _ => false

def Action.isTimerCreate : Action → Bool
  | Action.timerCreate => true
  | _ => false

def Action.isTimerArm : Action → Bool
  | Action.timerStartOnce _ => true
  | _ => false

/- The state touched by wifi_setup.c:
   `provisioning_timer` is the static esp_timer handle (`none` = NULL);
   `startup_wifi_config` is the static pre-provisioning snapshot;
   `persisted` is the STA config record in flash as read back by
   esp_wifi_get_config; `provMgrActive` tracks wifi_prov_mgr init/deinit;
   `resumed` tracks whether wifi_reconnect_resume has been signalled. -/
structure ModuleState where
  provisioning_timer : Option Nat
  startup_wifi_config : WifiStaConfig
  persisted : WifiStaConfig
  provMgrActive : Bool
  resumed : Bool
deriving DecidableEq

/- provisioning_timer_delete: stop and delete the timer iff the handle is
   non-NULL, then clear the handle; a no-op on a NULL handle. -/
def provisioning_timer_delete (s : ModuleState) : ModuleState × List Action :=
  match s.provisioning_timer with
  | some _ =>
      ({ s with provisioning_timer := none },
       [Action.timerStop, Action.timerDelete])
  | none => (s, [])

/- provisioning_timer_handler: on timeout, only request the provisioning
   manager to stop; everything else is done in the WIFI_PROV_END handler. -/
def provisioning_timer_handler (s : ModuleState) : ModuleState × List Action :=
  (s, [Action.logInfo "provisioning timeout", Action.provStopRequest])

/- The provisioning event stream delivered to wifi_prov_event_handler. -/
inductive ProvEvent where
  | START
  | CRED_RECV (ssid : List Char)
  | CRED_FAIL (authError : Bool)
  | CRED_SUCCESS
  | END
deriving DecidableEq

/- wifi_prov_event_handler of wifi_setup.c, case by case.  The END case
   deletes the timer, deinits the manager, reads back the persisted record
   and reconciles it against the startup snapshot, then resumes reconnect. -/
def wifi_prov_event_handler (s : ModuleState) (e : ProvEvent) : ModuleState × List Action :=
  match e with
  | ProvEvent.START => (s, [Action.logInfo "provisioning started"])
  | ProvEvent.CRED_RECV ssid =>
      (s, [Action.logInfo ("provisioning received ssid " ++ String.mk ssid)])
  | ProvEvent.CRED_FAIL authError =>
      (s, [Action.logError ("provisioning failed: " ++
            (if authError then "wifi STA authentication failed" else "wifi AP not found"))])
  | ProvEvent.CRED_SUCCESS => (s, [Action.logInfo "provisioning successful"])
  | ProvEvent.END =>
      let td := provisioning_timer_delete s
      let s2 := { td.1 with provMgrActive := false }
      if s2.persisted.ssid.isEmpty then
        ({ s2 with persisted := s2.startup_wifi_config, resumed := true },
         [Action.logInfo "provisioning end"] ++ td.2 ++
         [Action.provDeinit, Action.setStorage, Action.getConfig,
          Action.logInfo "wifi credentials not found after provisioning, trying startup wifi config",
          Action.setConfig s2.startup_wifi_config, Action.reconnectResume])
      else if s2.startup_wifi_config.ssid.isEmpty then
        ({ s2 with resumed := true },
         [Action.logInfo "provisioning end"] ++ td.2 ++
         [Action.provDeinit, Action.setStorage, Action.getConfig,
          Action.logInfo "no wifi credentials found", Action.reconnectResume])
      else
        ({ s2 with resumed := true },
         [Action.logInfo "provisioning end"] ++ td.2 ++
         [Action.provDeinit, Action.setStorage, Action.getConfig,
          Action.reconnectResume])

/- Little-endian value of the MAC bytes: setup_wifi reads the 6-byte MAC
   into the low bytes of a zero-initialised uint64_t on a little-endian CPU. -/
def macValue (mac : List Nat) : Nat :=
  mac.foldr (fun b acc => b + 256 * acc) 0

/- Lowercase hex of n, zero-padded to at least 6 digits: sprintf %06llx. -/
def hexPadMin6 (n : Nat) : List Char :=
  List.replicate (6 - (Nat.toDigits 16 n).length) '0' ++ Nat.toDigits 16 n

/- snprintf(device_name, 33, "%.25s-%06llx", project_name, mac): the project
   name truncated to 25 chars, a dash, the padded hex of the little-endian
   MAC value, the whole truncated to 32 chars by the 33-byte buffer. -/
def device_name (project_name : List Char) (mac : List Nat) : List Char :=
  (project_name.take 25 ++ ['-'] ++ hexPadMin6 (macValue mac)).take 32

/- snprintf(service_name, 38, "PROV_%s", device_name): no truncation since
   the device name is at most 32 chars. -/
def service_name_of (dn : List Char) : List Char :=
  String.toList "PROV_" ++ dn

/- wifi_prov_mgr_is_provisioned of the external provisioning manager.
   Modelled from the spec: `hasPersistedCredentials()` of the persistence
   layer, true iff a persisted STA credential record exists (ssid set). -/
def wifi_prov_mgr_is_provisioned (persisted : WifiStaConfig) : Bool :=
  !persisted.ssid.isEmpty

/- setup_wifi(reconfigure): derive the device name, bring up the stack,
   start the reconnect collaborator suspended, snapshot the persisted
   record into startup_wifi_config, init the provisioning manager; then
   either start a provisioning session under PROV_<device_name> and arm the
   one-shot timeout timer, or deinit the manager and resume reconnect with
   the persisted record.  `timeout_s` is CONFIG_APP_WIFI_PROV_TIMEOUT_S. -/
def setup_wifi (reconfigure : Bool) (timeout_s : Nat) (project_name : List Char)
    (mac : List Nat) (persisted : WifiStaConfig) : ModuleState × List Action :=
  let dn := device_name project_name mac
  let pre : List Action :=
    [Action.logInfo ("device name " ++ String.mk dn), Action.setStorage,
     Action.reconnectStart, Action.getConfig, Action.provInit]
  let s0 : ModuleState :=
    { provisioning_timer := none
      startup_wifi_config := persisted
      persisted := persisted
      provMgrActive := true
      resumed := false }
  let provisioned := wifi_prov_mgr_is_provisioned persisted
  if !provisioned || reconfigure then
    ({ s0 with provisioning_timer := some 0 },
     pre ++ [Action.provStart (service_name_of dn), Action.timerCreate,
             Action.timerStartOnce (timeout_s * 1000000)])
  else
    ({ s0 with provMgrActive := false, resumed := true },
     pre ++ [Action.provDeinit, Action.wifiStart, Action.reconnectResume])

/- Convenient concrete records for witnesses. -/
def noCfg : WifiStaConfig := { ssid := [], password := [] }

def homeCfg : WifiStaConfig :=
  { ssid := String.toList "home", password := String.toList "pass" }

def otherCfg : WifiStaConfig :=
  { ssid := String.toList "cafe", password := String.toList "word" }

def mkState (timer : Option Nat) (startup persisted : WifiStaConfig) : ModuleState :=
  { provisioning_timer := timer
    startup_wifi_config := startup
    persisted := persisted
    provMgrActive := true
    resumed := false }

/- Hex of one byte, two lowercase digits: used only to state the device
   name exactly as the claim words it, for comparison with the code. -/
def byteHex2 (b : Nat) : List Char :=
  List.replicate (2 - (Nat.toDigits 16 b).length) '0' ++ Nat.toDigits 16 b

/- Device name as the claim words it: productName truncated to 25 chars,
   a dash, the 6 hardware id bytes rendered as exactly 12 lowercase hex
   characters (two per byte, in byte order). -/
def device_name_claim (project_name : List Char) (mac : List Nat) : List Char :=
  project_name.take 25 ++ ['-'] ++ mac.foldr (fun b acc => byteHex2 b ++ acc) []

/-- Claim C1: at session end, if the persisted record read back is empty and
the startup snapshot is non-empty, reconciliation writes the snapshot back,
so the persisted record afterwards equals the snapshot. -/
theorem c1_empty_persisted_restored (s : ModuleState)
    (h1 : s.persisted.ssid.isEmpty = true)
    (_h2 : s.startup_wifi_config.ssid.isEmpty = false) :
    (wifi_prov_event_handler s ProvEvent.END).1.persisted = s.startup_wifi_config ∧
    Action.setConfig s.startup_wifi_config ∈ (wifi_prov_event_handler s ProvEvent.END).2 := by
  cases ht : s.provisioning_timer <;>
    simp [wifi_prov_event_handler, provisioning_timer_delete, ht, h1]

/-- Witness for C1 at a concrete state: empty persisted record, non-empty
snapshot. -/
theorem c1_witness :
    (mkState (some 0) homeCfg noCfg).persisted.ssid.isEmpty = true ∧
    (mkState (some 0) homeCfg noCfg).startup_wifi_config.ssid.isEmpty = false ∧
    ((wifi_prov_event_handler (mkState (some 0) homeCfg noCfg) ProvEvent.END).1.persisted
        = (mkState (some 0) homeCfg noCfg).startup_wifi_config ∧
      Action.setConfig (mkState (some 0) homeCfg noCfg).startup_wifi_config
        ∈ (wifi_prov_event_handler (mkState (some 0) homeCfg noCfg) ProvEvent.END).2) :=
  ⟨by decide, by decide,
   c1_empty_persisted_restored (mkState (some 0) homeCfg noCfg) (by decide) (by decide)⟩

/-- Claim C2 (code behaviour at the claimed inputs): when both the persisted
record and the snapshot are empty, the handler takes the write-back branch
(writing the empty snapshot) and emits no "no wifi credentials found"
report; the report is instead emitted when the persisted record is
non-empty and the snapshot is empty. -/
theorem c2_code_behavior :
    Action.setConfig noCfg
      ∈ (wifi_prov_event_handler (mkState (some 0) noCfg noCfg) ProvEvent.END).2 ∧
    Action.logInfo "no wifi credentials found"
      ∉ (wifi_prov_event_handler (mkState (some 0) noCfg noCfg) ProvEvent.END).2 ∧
    Action.logInfo "no wifi credentials found"
      ∈ (wifi_prov_event_handler (mkState (some 0) noCfg homeCfg) ProvEvent.END).2 := by
  decide

/-- Claim C3: at session end with a non-empty persisted record,
reconciliation accepts it as-is: no write is performed, the record is
unchanged, and running the session-end step twice yields the same record. -/
theorem c3_nonempty_accepted_idempotent (s : ModuleState)
    (h : s.persisted.ssid.isEmpty = false) :
    (wifi_prov_event_handler s ProvEvent.END).1.persisted = s.persisted ∧
    (∀ c, Action.setConfig c ∉ (wifi_prov_event_handler s ProvEvent.END).2) ∧
    (wifi_prov_event_handler (wifi_prov_event_handler s ProvEvent.END).1
        ProvEvent.END).1.persisted = s.persisted := by
  cases ht : s.provisioning_timer <;>
  cases hs : s.startup_wifi_config.ssid.isEmpty <;>
    simp [wifi_prov_event_handler, provisioning_timer_delete, ht, h, hs]

/-- Witness for C3 at a concrete state with a non-empty persisted record. -/
theorem c3_witness :
    (mkState (some 0) otherCfg homeCfg).persisted.ssid.isEmpty = false ∧
    ((wifi_prov_event_handler (mkState (some 0) otherCfg homeCfg) ProvEvent.END).1.persisted
        = (mkState (some 0) otherCfg homeCfg).persisted ∧
      (∀ c, Action.setConfig c
        ∉ (wifi_prov_event_handler (mkState (some 0) otherCfg homeCfg) ProvEvent.END).2) ∧
      (wifi_prov_event_handler
          (wifi_prov_event_handler (mkState (some 0) otherCfg homeCfg) ProvEvent.END).1
          ProvEvent.END).1.persisted = (mkState (some 0) otherCfg homeCfg).persisted) :=
  ⟨by decide, c3_nonempty_accepted_idempotent (mkState (some 0) otherCfg homeCfg) (by decide)⟩

/-- Claim C4: entering provisioning creates and arms exactly one timeout
timer; processing the session-end event always leaves the timer handle
NULL, and when a handle existed it is stopped and deleted there, so no
armed timer or handle survives the terminal transition. -/
theorem c4_timer_lifecycle :
    (∀ (reconfigure : Bool) (ts : Nat) (pn : List Char) (mac : List Nat) (p : WifiStaConfig),
      (!wifi_prov_mgr_is_provisioned p || reconfigure) = true →
        (setup_wifi reconfigure ts pn mac p).1.provisioning_timer = some 0 ∧
        (setup_wifi reconfigure ts pn mac p).2.countP Action.isTimerCreate = 1 ∧
        (setup_wifi reconfigure ts pn mac p).2.countP Action.isTimerArm = 1) ∧
    (∀ s : ModuleState,
      (wifi_prov_event_handler s ProvEvent.END).1.provisioning_timer = none ∧
      (s.provisioning_timer.isSome = true →
        Action.timerStop ∈ (wifi_prov_event_handler s ProvEvent.END).2 ∧
        Action.timerDelete ∈ (wifi_prov_event_handler s ProvEvent.END).2)) := by
  constructor
  · intro reconfigure ts pn mac p h
    simp [setup_wifi, h, List.countP_cons, Action.isTimerCreate, Action.isTimerArm]
  · intro s
    cases ht : s.provisioning_timer <;>
    cases hp : s.persisted.ssid.isEmpty <;>
    cases hs : s.startup_wifi_config.ssid.isEmpty <;>
      simp [wifi_prov_event_handler, provisioning_timer_delete, ht, hp, hs]

/-- Witness for C4 applying both parts at concrete inputs. -/
theorem c4_witness :
    ((!wifi_prov_mgr_is_provisioned noCfg || false) = true ∧
      (setup_wifi false 30 (String.toList "MyApp") [1, 2, 3, 4, 5, 6] noCfg).1.provisioning_timer
        = some 0 ∧
      (setup_wifi false 30 (String.toList "MyApp") [1, 2, 3, 4, 5, 6] noCfg).2.countP
          Action.isTimerCreate = 1 ∧
      (setup_wifi false 30 (String.toList "MyApp") [1, 2, 3, 4, 5, 6] noCfg).2.countP
          Action.isTimerArm = 1) ∧
    ((mkState (some 0) homeCfg noCfg).provisioning_timer.isSome = true ∧
      Action.timerStop
        ∈ (wifi_prov_event_handler (mkState (some 0) homeCfg noCfg) ProvEvent.END).2 ∧
      Action.timerDelete
        ∈ (wifi_prov_event_handler (mkState (some 0) homeCfg noCfg) ProvEvent.END).2) :=
  ⟨⟨by decide,
    c4_timer_lifecycle.1 false 30 (String.toList "MyApp") [1, 2, 3, 4, 5, 6] noCfg (by decide)⟩,
   ⟨by decide,
    (c4_timer_lifecycle.2 (mkState (some 0) homeCfg noCfg)).2 (by decide)⟩⟩

/-- Claim C5: a credential-failure event leaves the module state unchanged,
emits only log actions (no transport stop, no timer change), and any
sequence of such failures still leaves the state unchanged. -/
theorem c5_cred_fail_observational (s : ModuleState) (r : Bool) (fails : List Bool) :
    (wifi_prov_event_handler s (ProvEvent.CRED_FAIL r)).1 = s ∧
    (wifi_prov_event_handler s (ProvEvent.CRED_FAIL r)).2.all Action.isLog = true ∧
    List.foldl (fun st r2 => (wifi_prov_event_handler st (ProvEvent.CRED_FAIL r2)).1) s fails
      = s := by
  refine ⟨rfl, rfl, ?_⟩
  induction fails with
  | nil => rfl
  | cons a l ih => exact ih

/-- Claim C6: the timeout handler only logs and requests the transport to
stop (state untouched, no timer release, no write, no reconciliation);
teardown happens in the session-end handler, whose resume signal to the
reconnect collaborator is the last action of its trace, after the
transport deinit and all reconciliation writes. -/
theorem c6_timeout_frame_and_ordering (s : ModuleState) :
    provisioning_timer_handler s
      = (s, [Action.logInfo "provisioning timeout", Action.provStopRequest]) ∧
    Action.provDeinit ∈ (wifi_prov_event_handler s ProvEvent.END).2 ∧
    (wifi_prov_event_handler s ProvEvent.END).2.getLast? = some Action.reconnectResume := by
  refine ⟨rfl, ?_, ?_⟩ <;>
  · cases ht : s.provisioning_timer <;>
    cases hp : s.persisted.ssid.isEmpty <;>
    cases hs : s.startup_wifi_config.ssid.isEmpty <;>
      simp [wifi_prov_event_handler, provisioning_timer_delete, ht, hp, hs]

/-- Claim C7: setup enters provisioning iff no persisted credentials exist
or reconfigure was requested; in that case it starts the service under the
derived service name and arms the timeout timer, and otherwise it deinits
the provisioning manager and directly resumes the reconnect collaborator
with the persisted record unchanged. -/
theorem c7_setup_decision (reconfigure : Bool) (ts : Nat) (pn : List Char)
    (mac : List Nat) (p : WifiStaConfig) :
    ((Action.provStart (service_name_of (device_name pn mac))
        ∈ (setup_wifi reconfigure ts pn mac p).2)
      ↔ (p.ssid.isEmpty = true ∨ reconfigure = true)) ∧
    ((p.ssid.isEmpty = true ∨ reconfigure = true) →
      (setup_wifi reconfigure ts pn mac p).1.provisioning_timer = some 0 ∧
      Action.timerStartOnce (ts * 1000000) ∈ (setup_wifi reconfigure ts pn mac p).2) ∧
    (¬(p.ssid.isEmpty = true ∨ reconfigure = true) →
      (setup_wifi reconfigure ts pn mac p).1.provMgrActive = false ∧
      (setup_wifi reconfigure ts pn mac p).1.resumed = true ∧
      Action.provDeinit ∈ (setup_wifi reconfigure ts pn mac p).2 ∧
      Action.reconnectResume ∈ (setup_wifi reconfigure ts pn mac p).2 ∧
      (setup_wifi reconfigure ts pn mac p).1.persisted = p) := by
  cases hr : reconfigure <;>
  cases hp : p.ssid.isEmpty <;>
    simp [setup_wifi, wifi_prov_mgr_is_provisioned, hp]

/-- Witness for C7 at concrete inputs, one per side of the decision. -/
theorem c7_witness :
    (((String.toList "home" : List Char).isEmpty = true ∨ (true : Bool) = true) ∧
      (setup_wifi true 30 (String.toList "MyApp") [1, 2, 3, 4, 5, 6] homeCfg).1.provisioning_timer
        = some 0 ∧
      Action.timerStartOnce (30 * 1000000)
        ∈ (setup_wifi true 30 (String.toList "MyApp") [1, 2, 3, 4, 5, 6] homeCfg).2) ∧
    (¬((String.toList "home" : List Char).isEmpty = true ∨ (false : Bool) = true) ∧
      (setup_wifi false 30 (String.toList "MyApp") [1, 2, 3, 4, 5, 6] homeCfg).1.provMgrActive
        = false ∧
      (setup_wifi false 30 (String.toList "MyApp") [1, 2, 3, 4, 5, 6] homeCfg).1.resumed
        = true ∧
      Action.provDeinit
        ∈ (setup_wifi false 30 (String.toList "MyApp") [1, 2, 3, 4, 5, 6] homeCfg).2 ∧
      Action.reconnectResume
        ∈ (setup_wifi false 30 (String.toList "MyApp") [1, 2, 3, 4, 5, 6] homeCfg).2 ∧
      (setup_wifi false 30 (String.toList "MyApp") [1, 2, 3, 4, 5, 6] homeCfg).1.persisted
        = homeCfg) :=
  ⟨⟨by decide,
    (c7_setup_decision true 30 (String.toList "MyApp") [1, 2, 3, 4, 5, 6] homeCfg).2.1
      (by decide)⟩,
   ⟨by decide,
    (c7_setup_decision false 30 (String.toList "MyApp") [1, 2, 3, 4, 5, 6] homeCfg).2.2
      (by decide)⟩⟩

/-- Claim C9: after the session-end event is processed the timer handle is
NULL, releasing it again is a no-op, and in general the guarded release
path does nothing on a NULL handle. -/
theorem c9_release_after_end_noop (s : ModuleState) :
    (wifi_prov_event_handler s ProvEvent.END).1.provisioning_timer = none ∧
    provisioning_timer_delete (wifi_prov_event_handler s ProvEvent.END).1
      = ((wifi_prov_event_handler s ProvEvent.END).1, []) ∧
    (∀ s2 : ModuleState, s2.provisioning_timer = none →
      provisioning_timer_delete s2 = (s2, [])) := by
  refine ⟨?_, ?_, ?_⟩
  · cases ht : s.provisioning_timer <;>
    cases hp : s.persisted.ssid.isEmpty <;>
    cases hs : s.startup_wifi_config.ssid.isEmpty <;>
      simp [wifi_prov_event_handler, provisioning_timer_delete, ht, hp, hs]
  · cases ht : s.provisioning_timer <;>
    cases hp : s.persisted.ssid.isEmpty <;>
    cases hs : s.startup_wifi_config.ssid.isEmpty <;>
      simp [wifi_prov_event_handler, provisioning_timer_delete, ht, hp, hs]
  · intro s2 h2
    simp [provisioning_timer_delete, h2]

/-- Witness for C9 applying the guarded-release part at a concrete state. -/
theorem c9_witness :
    (mkState none homeCfg noCfg).provisioning_timer = none ∧
    provisioning_timer_delete (mkState none homeCfg noCfg)
      = ((mkState none homeCfg noCfg), []) :=
  ⟨by decide,
   (c9_release_after_end_noop (mkState none homeCfg noCfg)).2.2
     (mkState none homeCfg noCfg) (by decide)⟩

/-- Claim C10: at session end, the write-back happens unconditionally
whenever the read-back record is empty (even with an empty snapshot), so
the record afterwards is the read-back record if non-empty, else the
snapshot. -/
theorem c10_reconcile_total (s : ModuleState) :
    ((wifi_prov_event_handler s ProvEvent.END).1.persisted
      = if s.persisted.ssid.isEmpty then s.startup_wifi_config else s.persisted) ∧
    (s.persisted.ssid.isEmpty = true →
      Action.setConfig s.startup_wifi_config
        ∈ (wifi_prov_event_handler s ProvEvent.END).2) := by
  cases ht : s.provisioning_timer <;>
  cases hp : s.persisted.ssid.isEmpty <;>
  cases hs : s.startup_wifi_config.ssid.isEmpty <;>
    simp [wifi_prov_event_handler, provisioning_timer_delete, ht, hp, hs]

/-- Witness for C10 at the both-empty state: the empty snapshot is written. -/
theorem c10_witness :
    ((wifi_prov_event_handler (mkState (some 0) noCfg noCfg) ProvEvent.END).1.persisted
      = if (mkState (some 0) noCfg noCfg).persisted.ssid.isEmpty
          then (mkState (some 0) noCfg noCfg).startup_wifi_config
          else (mkState (some 0) noCfg noCfg).persisted) ∧
    ((mkState (some 0) noCfg noCfg).persisted.ssid.isEmpty = true ∧
      Action.setConfig (mkState (some 0) noCfg noCfg).startup_wifi_config
        ∈ (wifi_prov_event_handler (mkState (some 0) noCfg noCfg) ProvEvent.END).2) :=
  ⟨(c10_reconcile_total (mkState (some 0) noCfg noCfg)).1,
   by decide,
   (c10_reconcile_total (mkState (some 0) noCfg noCfg)).2 (by decide)⟩

/-- Claim C8, counterexample: for hardware id bytes 01:00:00:00:00:00 the
code renders the hex of the little-endian 48-bit value padded to only 6
digits, so the device name is "MyApp-000001", not the claimed form with
exactly 12 hex characters. -/
theorem c8_counterexample :
    device_name (String.toList "MyApp") [1, 0, 0, 0, 0, 0]
      = String.toList "MyApp-000001" ∧
    device_name_claim (String.toList "MyApp") [1, 0, 0, 0, 0, 0]
      = String.toList "MyApp-010000000000" ∧
    device_name (String.toList "MyApp") [1, 0, 0, 0, 0, 0]
      ≠ device_name_claim (String.toList "MyApp") [1, 0, 0, 0, 0, 0] := by
  decide

/-- Claim C8, amended: the device name is the project name truncated to 25
chars, a dash, and the lowercase hex of the little-endian value of the 6
MAC bytes zero-padded to at least 6 digits, the whole truncated to 32
chars; the service name prepends "PROV_" and is at most 37 chars; the
padded hex is a suffix of the device name whenever the untruncated form
fits in 32 chars. -/
theorem c8_device_name_bounds (pn : List Char) (mac : List Nat) (_h : mac.length = 6) :
    (device_name pn mac).length ≤ 32 ∧
    6 ≤ (hexPadMin6 (macValue mac)).length ∧
    service_name_of (device_name pn mac)
      = String.toList "PROV_" ++ device_name pn mac ∧
    (service_name_of (device_name pn mac)).length ≤ 37 ∧
    ((pn.take 25).length + 1 + (hexPadMin6 (macValue mac)).length ≤ 32 →
      List.IsSuffix (hexPadMin6 (macValue mac)) (device_name pn mac)) := by
  refine ⟨?_, ?_, rfl, ?_, ?_⟩
  · simp [device_name, List.length_take]
  · simp [hexPadMin6]
    omega
  · have hd : (device_name pn mac).length ≤ 32 := by
      simp [device_name, List.length_take]
    simp [service_name_of]
    omega
  · intro hfit
    have e : (pn.take 25 ++ ['-'] ++ hexPadMin6 (macValue mac)).length
        = (pn.take 25).length + 1 + (hexPadMin6 (macValue mac)).length := by
      simp only [List.length_append, List.length_cons, List.length_nil]
    have hlen : (pn.take 25 ++ ['-'] ++ hexPadMin6 (macValue mac)).length ≤ 32 := by
      omega
    have heq : device_name pn mac = pn.take 25 ++ ['-'] ++ hexPadMin6 (macValue mac) := by
      unfold device_name
      exact List.take_of_length_le hlen
    rw [heq]
    exact List.suffix_append _ _

/-- Witness for C8 at a concrete 6-byte hardware id and project name. -/
theorem c8_witness :
    ([18, 52, 86, 120, 154, 188] : List Nat).length = 6 ∧
    ((device_name (String.toList "MyApp") [18, 52, 86, 120, 154, 188]).length ≤ 32 ∧
      6 ≤ (hexPadMin6 (macValue [18, 52, 86, 120, 154, 188])).length ∧
      service_name_of (device_name (String.toList "MyApp") [18, 52, 86, 120, 154, 188])
        = String.toList "PROV_" ++ device_name (String.toList "MyApp") [18, 52, 86, 120, 154, 188] ∧
      (service_name_of (device_name (String.toList "MyApp") [18, 52, 86, 120, 154, 188])).length
        ≤ 37 ∧
      (((String.toList "MyApp").take 25).length + 1
          + (hexPadMin6 (macValue [18, 52, 86, 120, 154, 188])).length ≤ 32 →
        List.IsSuffix (hexPadMin6 (macValue [18, 52, 86, 120, 154, 188]))
          (device_name (String.toList "MyApp") [18, 52, 86, 120, 154, 188]))) :=
  ⟨by decide,
   c8_device_name_bounds (String.toList "MyApp") [18, 52, 86, 120, 154, 188] (by decide)⟩

end WifiSetup
